import Mathlib

/-!
Verification of the reward-points calculation core of the loyalty
application (`RewardEngineService.calculatePointsPreview` in
`src/services/rewardEngineService.ts`).

The TypeScript function is pure arithmetic over JavaScript numbers; we
embed it shallowly over `ℚ`, with `Math.floor` as `Int.floor`.  The
JavaScript expression `x || 1.0` replaces the falsy values `undefined`
and `0` by `1.0`; over `ℚ` the only falsy number is `0`, and an unknown
tier name yields `undefined`, so the fallback is modelled by an `Option`
lookup followed by a zero test.
-/

/-- Settings for the `smart` mode (`SmartSettings` in the source). -/
structure SmartSettings where
  cost_price : ℚ
  selling_price : ℚ
  profit_allocation_percent : ℚ
deriving DecidableEq

/-- Settings for the `manual` mode (`ManualSettings` in the source). -/
structure ManualSettings where
  aed_value : ℚ
  point_value : ℚ
deriving DecidableEq

/-- Per-tier multipliers (`TierMultipliers` in the source). -/
structure TierMultipliers where
  bronze : ℚ
  silver : ℚ
  gold : ℚ
  platinum : ℚ
deriving DecidableEq

/-- The calculation mode: the source type is the union `'smart' | 'manual'`. -/
inductive Mode where
  | smart : Mode
  | manual : Mode
deriving DecidableEq

/-- The reward-engine configuration (`RewardEngineConfig` in the source). -/
structure RewardEngineConfig where
  mode : Mode
  smart_settings : SmartSettings
  manual_settings : ManualSettings
  tier_multipliers : TierMultipliers
  max_points_per_order : ℚ
deriving DecidableEq

/-- Property lookup `config.tier_multipliers[customerTier as keyof TierMultipliers]`:
a known key returns the field, an unknown key returns `undefined` (here `none`). -/
def tierLookup (t : TierMultipliers) (customerTier : String) : Option ℚ :=
  if customerTier = "bronze" then some t.bronze
  else if customerTier = "silver" then some t.silver
  else if customerTier = "gold" then some t.gold
  else if customerTier = "platinum" then some t.platinum
  else none

/-- The tier multiplier of source line 115, including the `|| 1.0` fallback:
`undefined` (unknown tier) and the falsy number `0` both become `1.0`. -/
def tierMultiplierOf (t : TierMultipliers) (customerTier : String) : ℚ :=
  match tierLookup t customerTier with
  | some m => if m = 0 then 1 else m
  | none => 1

/-- `basePoints` as computed by source lines 98-112: mode-branched, with the
division guarded by strict positivity of the divisor, else `0`. -/
def basePointsOf (config : RewardEngineConfig) (orderAmount : ℚ) : ℤ :=
  match config.mode with
  | Mode.smart =>
    let s := config.smart_settings
    if 0 < s.selling_price then
      let profit := (s.selling_price - s.cost_price) * (orderAmount / s.selling_price)
      let rewardValue := profit * (s.profit_allocation_percent / 100)
      ⌊rewardValue⌋
    else 0
  | Mode.manual =>
    let m := config.manual_settings
    if 0 < m.aed_value then ⌊(orderAmount / m.aed_value) * m.point_value⌋
    else 0

/-- `finalPoints` of source line 116: the tier multiplier is applied to
`basePoints` and the product is floored again. -/
def finalPointsOf (config : RewardEngineConfig) (orderAmount : ℚ)
    (customerTier : String) : ℤ :=
  ⌊(basePointsOf config orderAmount : ℚ) *
    tierMultiplierOf config.tier_multipliers customerTier⌋

/-- `calculatePointsPreview` (source lines 93-120): clamp `finalPoints` into
`[0, max_points_per_order]` and return it.  The result is a JavaScript
number, hence `ℚ` here (`max_points_per_order` need not be an integer). -/
def calculatePointsPreview (config : RewardEngineConfig) (orderAmount : ℚ)
    (customerTier : String) : ℚ :=
  min (max ((finalPointsOf config orderAmount customerTier : ℚ)) 0)
    config.max_points_per_order

/-- Division that signals a zero divisor instead of defaulting, used to show
the division-by-zero branch of the source is unreachable. -/
def divChecked (a b : ℚ) : Option ℚ :=
  if b = 0 then none else some (a / b)

/-- `basePoints` with every division checked: `none` exactly when an executed
division has a zero divisor. -/
def basePointsChecked (config : RewardEngineConfig) (orderAmount : ℚ) : Option ℤ :=
  match config.mode with
  | Mode.smart =>
    let s := config.smart_settings
    if 0 < s.selling_price then
      (divChecked orderAmount s.selling_price).map fun q =>
        ⌊(s.selling_price - s.cost_price) * q * (s.profit_allocation_percent / 100)⌋
    else some 0
  | Mode.manual =>
    let m := config.manual_settings
    if 0 < m.aed_value then
      (divChecked orderAmount m.aed_value).map fun q => ⌊q * m.point_value⌋
    else some 0

/-- `calculatePointsPreview` with every division checked: returns `none`
exactly when some executed division has a zero divisor. -/
def calculatePointsPreviewChecked (config : RewardEngineConfig)
    (orderAmount : ℚ) (customerTier : String) : Option ℚ :=
  (basePointsChecked config orderAmount).map fun b =>
    min (max ((⌊(b : ℚ) * tierMultiplierOf config.tier_multipliers customerTier⌋ : ℚ)) 0)
      config.max_points_per_order

/-- Update the multiplier of the named tier; unknown names leave the record
unchanged (used to state the zero-multiplier fallback claim). -/
def setTier (t : TierMultipliers) (customerTier : String) (v : ℚ) : TierMultipliers :=
  if customerTier = "bronze" then { t with bronze := v }
  else if customerTier = "silver" then { t with silver := v }
  else if customerTier = "gold" then { t with gold := v }
  else if customerTier = "platinum" then { t with platinum := v }
  else t

/-! ### Evaluation lemmas for the tier lookup at concrete tier names -/

theorem tierLookup_bronze (t : TierMultipliers) : tierLookup t "bronze" = some t.bronze := rfl

theorem tierLookup_silver (t : TierMultipliers) : tierLookup t "silver" = some t.silver := rfl

theorem tierLookup_gold (t : TierMultipliers) : tierLookup t "gold" = some t.gold := rfl

theorem tierLookup_platinum (t : TierMultipliers) : tierLookup t "platinum" = some t.platinum := rfl

theorem tierLookup_diamond (t : TierMultipliers) : tierLookup t "diamond" = none := rfl

/-- An unknown tier name looks up to `undefined`, i.e. `none`. -/
theorem tierLookup_unknown (t : TierMultipliers) (s : String)
    (h1 : s ≠ "bronze") (h2 : s ≠ "silver") (h3 : s ≠ "gold") (h4 : s ≠ "platinum") :
    tierLookup t s = none := by
  unfold tierLookup
  rw [if_neg h1, if_neg h2, if_neg h3, if_neg h4]

/-! ### Claim theorems -/

/-- C9: `calculatePointsPreview` is deterministic and pure — two invocations
with identical configuration, order amount, and tier give identical results. -/
theorem claim_C9_deterministic (config : RewardEngineConfig) (orderAmount : ℚ)
    (customerTier : String) :
    calculatePointsPreview config orderAmount customerTier =
      calculatePointsPreview config orderAmount customerTier := rfl

/-- C7: the non-authoritative settings record is ignored — in smart mode the
result does not depend on `manual_settings`, and in manual mode it does not
depend on `smart_settings`. -/
theorem claim_C7_frame (ss ss₁ ss₂ : SmartSettings) (ms ms₁ ms₂ : ManualSettings)
    (t : TierMultipliers) (maxp orderAmount : ℚ) (customerTier : String) :
    calculatePointsPreview ⟨Mode.smart, ss, ms₁, t, maxp⟩ orderAmount customerTier =
      calculatePointsPreview ⟨Mode.smart, ss, ms₂, t, maxp⟩ orderAmount customerTier ∧
    calculatePointsPreview ⟨Mode.manual, ss₁, ms, t, maxp⟩ orderAmount customerTier =
      calculatePointsPreview ⟨Mode.manual, ss₂, ms, t, maxp⟩ orderAmount customerTier :=
  ⟨rfl, rfl⟩

/-- C6: with `max_points_per_order ≥ 1`, an order amount of `0` yields
`basePoints = 0` and a final result of `0` in either mode and for any tier. -/
theorem claim_C6_zero_amount (config : RewardEngineConfig) (customerTier : String)
    (hmax : 1 ≤ config.max_points_per_order) :
    basePointsOf config 0 = 0 ∧ calculatePointsPreview config 0 customerTier = 0 := by
  have hbase : basePointsOf config 0 = 0 := by
    unfold basePointsOf
    cases config.mode <;> dsimp only <;> split_ifs <;> norm_num
  refine ⟨hbase, ?_⟩
  unfold calculatePointsPreview finalPointsOf
  rw [hbase]
  norm_num
  linarith

/-- C6 witness: the zero-amount boundary at the default configuration. -/
theorem claim_C6_zero_amount_witness :
    basePointsOf ⟨Mode.manual, ⟨0, 0, 20⟩, ⟨10, 1⟩, ⟨1, 5/4, 3/2, 2⟩, 1000⟩ 0 = 0 ∧
    calculatePointsPreview ⟨Mode.manual, ⟨0, 0, 20⟩, ⟨10, 1⟩, ⟨1, 5/4, 3/2, 2⟩, 1000⟩ 0
      "bronze" = 0 :=
  claim_C6_zero_amount ⟨Mode.manual, ⟨0, 0, 20⟩, ⟨10, 1⟩, ⟨1, 5/4, 3/2, 2⟩, 1000⟩ "bronze"
    (by norm_num)

/-- C2: in smart mode, `basePoints` is
`⌊(selling_price − cost_price) · (orderAmount / selling_price) · (profit_allocation_percent / 100)⌋`
when `selling_price > 0` and `0` otherwise; at
`cost_price = 5, selling_price = 10, profit_allocation_percent = 20,
orderAmount = 100`, tier multiplier `1.0` and `max_points_per_order ≥ 10`
the preview is exactly `10`. -/
theorem claim_C2_smart_mode (cp sp pa : ℚ) (ms : ManualSettings) (t : TierMultipliers)
    (maxp orderAmount : ℚ) (customerTier : String) :
    (0 < sp →
      basePointsOf ⟨Mode.smart, ⟨cp, sp, pa⟩, ms, t, maxp⟩ orderAmount =
        ⌊(sp - cp) * (orderAmount / sp) * (pa / 100)⌋) ∧
    (sp ≤ 0 → basePointsOf ⟨Mode.smart, ⟨cp, sp, pa⟩, ms, t, maxp⟩ orderAmount = 0) ∧
    (cp = 5 → sp = 10 → pa = 20 → orderAmount = 100 →
      tierMultiplierOf t customerTier = 1 → 10 ≤ maxp →
      calculatePointsPreview ⟨Mode.smart, ⟨cp, sp, pa⟩, ms, t, maxp⟩ orderAmount
        customerTier = 10) := by
  refine ⟨fun h => ?_, fun h => ?_, ?_⟩
  · unfold basePointsOf
    rw [if_pos h]
  · unfold basePointsOf
    rw [if_neg (not_lt.mpr h)]
  · intro h1 h2 h3 h4 htier hmaxp
    subst h1; subst h2; subst h3; subst h4
    have hb : basePointsOf ⟨Mode.smart, ⟨5, 10, 20⟩, ms, t, maxp⟩ 100 = 10 := by
      norm_num [basePointsOf]
    unfold calculatePointsPreview finalPointsOf
    rw [hb, htier]
    norm_num
    linarith

/-- C2 witness: the smart-mode worked example evaluated at a concrete
configuration (bronze multiplier `1.0`, cap `1000`). -/
theorem claim_C2_smart_mode_witness :
    ((0:ℚ) < 10 ∧
      basePointsOf ⟨Mode.smart, ⟨5, 10, 20⟩, ⟨10, 1⟩, ⟨1, 5/4, 3/2, 2⟩, 1000⟩ 100 =
        ⌊((10:ℚ) - 5) * (100 / 10) * (20 / 100)⌋) ∧
    calculatePointsPreview ⟨Mode.smart, ⟨5, 10, 20⟩, ⟨10, 1⟩, ⟨1, 5/4, 3/2, 2⟩, 1000⟩ 100
      "bronze" = 10 :=
  ⟨⟨by norm_num,
    (claim_C2_smart_mode 5 10 20 ⟨10, 1⟩ ⟨1, 5/4, 3/2, 2⟩ 1000 100 "bronze").1 (by norm_num)⟩,
    (claim_C2_smart_mode 5 10 20 ⟨10, 1⟩ ⟨1, 5/4, 3/2, 2⟩ 1000 100 "bronze").2.2 rfl rfl rfl rfl
      (by norm_num [tierMultiplierOf, tierLookup_bronze]) (by norm_num)⟩

/-- C3: in manual mode, `basePoints = ⌊(orderAmount / aed_value) · point_value⌋`
when `aed_value > 0` and `0` otherwise; the tier multiplier is applied with a
second floor, `finalPoints = ⌊basePoints · tierMultiplier⌋`; at
`aed_value = 10, point_value = 1, orderAmount = 95`, multiplier `1.25` and
`max_points_per_order ≥ 11` the preview is exactly `11`. -/
theorem claim_C3_manual_mode (av pv : ℚ) (ss : SmartSettings) (t : TierMultipliers)
    (maxp orderAmount : ℚ) (customerTier : String) :
    (0 < av →
      basePointsOf ⟨Mode.manual, ss, ⟨av, pv⟩, t, maxp⟩ orderAmount =
        ⌊(orderAmount / av) * pv⌋) ∧
    (av ≤ 0 → basePointsOf ⟨Mode.manual, ss, ⟨av, pv⟩, t, maxp⟩ orderAmount = 0) ∧
    (finalPointsOf ⟨Mode.manual, ss, ⟨av, pv⟩, t, maxp⟩ orderAmount customerTier =
      ⌊(basePointsOf ⟨Mode.manual, ss, ⟨av, pv⟩, t, maxp⟩ orderAmount : ℚ) *
        tierMultiplierOf t customerTier⌋) ∧
    (av = 10 → pv = 1 → orderAmount = 95 →
      tierMultiplierOf t customerTier = 5/4 → 11 ≤ maxp →
      calculatePointsPreview ⟨Mode.manual, ss, ⟨av, pv⟩, t, maxp⟩ orderAmount
        customerTier = 11) := by
  refine ⟨fun h => ?_, fun h => ?_, rfl, ?_⟩
  · unfold basePointsOf
    rw [if_pos h]
  · unfold basePointsOf
    rw [if_neg (not_lt.mpr h)]
  · intro h1 h2 h3 htier hmaxp
    subst h1; subst h2; subst h3
    have hb : basePointsOf ⟨Mode.manual, ss, ⟨10, 1⟩, t, maxp⟩ 95 = 9 := by
      norm_num [basePointsOf]
    unfold calculatePointsPreview finalPointsOf
    rw [hb, htier]
    norm_num
    linarith

/-- C3 witness: the manual-mode worked example (silver multiplier `1.25`)
showing the two-stage floor producing `11` rather than `floor(9.5 · 1.25)`. -/
theorem claim_C3_manual_mode_witness :
    ((0:ℚ) < 10 ∧
      basePointsOf ⟨Mode.manual, ⟨0, 0, 20⟩, ⟨10, 1⟩, ⟨1, 5/4, 3/2, 2⟩, 1000⟩ 95 =
        ⌊((95:ℚ) / 10) * 1⌋) ∧
    calculatePointsPreview ⟨Mode.manual, ⟨0, 0, 20⟩, ⟨10, 1⟩, ⟨1, 5/4, 3/2, 2⟩, 1000⟩ 95
      "silver" = 11 :=
  ⟨⟨by norm_num,
    (claim_C3_manual_mode 10 1 ⟨0, 0, 20⟩ ⟨1, 5/4, 3/2, 2⟩ 1000 95 "silver").1 (by norm_num)⟩,
    (claim_C3_manual_mode 10 1 ⟨0, 0, 20⟩ ⟨1, 5/4, 3/2, 2⟩ 1000 95 "silver").2.2.2 rfl rfl rfl
      (by norm_num [tierMultiplierOf, tierLookup_silver]) (by norm_num)⟩

/-- C1: when `max_points_per_order` is an integer `m ≥ 1`, the preview equals
`min(max(finalPoints, 0), max_points_per_order)`, is a non-negative integer
not exceeding `max_points_per_order`, and equals `max_points_per_order`
whenever the pre-clamp `finalPoints` exceeds it. -/
theorem claim_C1_clamp (config : RewardEngineConfig) (orderAmount : ℚ)
    (customerTier : String) (m : ℤ) (hm : config.max_points_per_order = (m : ℚ))
    (h1 : 1 ≤ m) :
    calculatePointsPreview config orderAmount customerTier =
      min (max ((finalPointsOf config orderAmount customerTier : ℚ)) 0)
        config.max_points_per_order ∧
    (∃ k : ℤ, calculatePointsPreview config orderAmount customerTier = (k : ℚ) ∧
      0 ≤ k ∧ (k : ℚ) ≤ config.max_points_per_order) ∧
    (config.max_points_per_order <
        (finalPointsOf config orderAmount customerTier : ℚ) →
      calculatePointsPreview config orderAmount customerTier =
        config.max_points_per_order) := by
  set fp := finalPointsOf config orderAmount customerTier with hfp
  refine ⟨rfl, ⟨min (max fp 0) m, ?_, ?_, ?_⟩, ?_⟩
  · unfold calculatePointsPreview
    rw [← hfp, hm]
    push_cast
    ring
  · exact le_min (le_max_right _ _) (by omega)
  · rw [hm]
    exact_mod_cast min_le_right (max fp 0) m
  · intro hlt
    rw [hm] at hlt ⊢
    have hfl : m < fp := by exact_mod_cast hlt
    unfold calculatePointsPreview
    rw [← hfp, hm]
    rw [max_eq_left (show (0:ℚ) ≤ (fp : ℚ) by exact_mod_cast (by omega : (0:ℤ) ≤ fp))]
    rw [min_eq_right (by exact_mod_cast le_of_lt hfl : (m:ℚ) ≤ (fp : ℚ))]

/-- C1 witness: a configuration with cap `5` on an order producing
`finalPoints = 10`, clamped to exactly `5`. -/
theorem claim_C1_clamp_witness :
    calculatePointsPreview ⟨Mode.manual, ⟨0, 0, 20⟩, ⟨10, 1⟩, ⟨1, 1, 1, 1⟩, 5⟩ 100 "bronze" =
      min (max ((finalPointsOf ⟨Mode.manual, ⟨0, 0, 20⟩, ⟨10, 1⟩, ⟨1, 1, 1, 1⟩, 5⟩ 100
        "bronze" : ℚ)) 0)
        (RewardEngineConfig.max_points_per_order
          ⟨Mode.manual, ⟨0, 0, 20⟩, ⟨10, 1⟩, ⟨1, 1, 1, 1⟩, 5⟩) ∧
    (∃ k : ℤ, calculatePointsPreview ⟨Mode.manual, ⟨0, 0, 20⟩, ⟨10, 1⟩, ⟨1, 1, 1, 1⟩, 5⟩ 100
        "bronze" = (k : ℚ) ∧
      0 ≤ k ∧ (k : ℚ) ≤ RewardEngineConfig.max_points_per_order
        ⟨Mode.manual, ⟨0, 0, 20⟩, ⟨10, 1⟩, ⟨1, 1, 1, 1⟩, 5⟩) ∧
    (RewardEngineConfig.max_points_per_order
        ⟨Mode.manual, ⟨0, 0, 20⟩, ⟨10, 1⟩, ⟨1, 1, 1, 1⟩, 5⟩ <
        (finalPointsOf ⟨Mode.manual, ⟨0, 0, 20⟩, ⟨10, 1⟩, ⟨1, 1, 1, 1⟩, 5⟩ 100 "bronze" : ℚ) →
      calculatePointsPreview ⟨Mode.manual, ⟨0, 0, 20⟩, ⟨10, 1⟩, ⟨1, 1, 1, 1⟩, 5⟩ 100 "bronze" =
        RewardEngineConfig.max_points_per_order
          ⟨Mode.manual, ⟨0, 0, 20⟩, ⟨10, 1⟩, ⟨1, 1, 1, 1⟩, 5⟩) :=
  claim_C1_clamp ⟨Mode.manual, ⟨0, 0, 20⟩, ⟨10, 1⟩, ⟨1, 1, 1, 1⟩, 5⟩ 100 "bronze" 5
    (by norm_num) (by norm_num)

/-- C5: an unknown tier name falls back to multiplier `1.0` — the result is
the same as with any tier whose effective multiplier is `1.0`. -/
theorem claim_C5_unknown_tier (config : RewardEngineConfig) (orderAmount : ℚ)
    (customerTier knownTier : String)
    (h1 : customerTier ≠ "bronze") (h2 : customerTier ≠ "silver")
    (h3 : customerTier ≠ "gold") (h4 : customerTier ≠ "platinum")
    (hone : tierMultiplierOf config.tier_multipliers knownTier = 1) :
    calculatePointsPreview config orderAmount customerTier =
      calculatePointsPreview config orderAmount knownTier := by
  have hu : tierMultiplierOf config.tier_multipliers customerTier = 1 := by
    unfold tierMultiplierOf
    rw [tierLookup_unknown _ _ h1 h2 h3 h4]
  unfold calculatePointsPreview finalPointsOf
  rw [hu, hone]

/-- C5 witness: tier name `"diamond"` gives the same preview as `"bronze"`
with an explicit bronze multiplier of `1.0`. -/
theorem claim_C5_unknown_tier_witness :
    calculatePointsPreview ⟨Mode.manual, ⟨0, 0, 20⟩, ⟨10, 1⟩, ⟨1, 5/4, 3/2, 2⟩, 1000⟩ 95
      "diamond" =
    calculatePointsPreview ⟨Mode.manual, ⟨0, 0, 20⟩, ⟨10, 1⟩, ⟨1, 5/4, 3/2, 2⟩, 1000⟩ 95
      "bronze" :=
  claim_C5_unknown_tier ⟨Mode.manual, ⟨0, 0, 20⟩, ⟨10, 1⟩, ⟨1, 5/4, 3/2, 2⟩, 1000⟩ 95
    "diamond" "bronze" (by decide) (by decide) (by decide) (by decide)
    (by norm_num [tierMultiplierOf, tierLookup_bronze])

/-- C8: the division-by-zero branch is unreachable — the checked variant, in
which every executed division signals a zero divisor, always returns
`some` of the unchecked result. -/
theorem claim_C8_no_div_failure (config : RewardEngineConfig) (orderAmount : ℚ)
    (customerTier : String) :
    calculatePointsPreviewChecked config orderAmount customerTier =
      some (calculatePointsPreview config orderAmount customerTier) := by
  unfold calculatePointsPreviewChecked basePointsChecked calculatePointsPreview finalPointsOf
    basePointsOf divChecked
  cases config.mode <;> dsimp only <;> split_ifs with h h0 <;>
    first
    | exact absurd h0 (ne_of_gt h)
    | simp

/-- C4 counterexample: the source does not clamp a negative `orderAmount` to
`0`.  In smart mode with `cost_price = 20 > selling_price = 10`,
`profit_allocation_percent = 100`, multiplier `1.0` and cap `1000`, an order
amount of `−100` yields `(10 − 20) · (−100/10) · 1 = 100` points, not `0`. -/
theorem claim_C4_neg_amount_cex :
    calculatePointsPreview ⟨Mode.smart, ⟨20, 10, 100⟩, ⟨10, 1⟩, ⟨1, 1, 1, 1⟩, 1000⟩ (-100)
      "bronze" = 100 ∧ (100 : ℚ) ≠ 0 := by
  constructor
  · have hb : basePointsOf ⟨Mode.smart, ⟨20, 10, 100⟩, ⟨10, 1⟩, ⟨1, 1, 1, 1⟩, 1000⟩ (-100) =
        100 := by
      norm_num [basePointsOf]
    unfold calculatePointsPreview finalPointsOf
    rw [hb]
    norm_num [tierMultiplierOf, tierLookup_bronze]
  · norm_num

/-- C4 amended: for a negative order amount the preview is `0`, provided the
configuration satisfies the documented data-model constraints — in smart mode
`cost_price ≤ selling_price` and `profit_allocation_percent ≥ 0`, in manual
mode `point_value ≥ 0`, the effective tier multiplier is non-negative, and
`max_points_per_order ≥ 0`.  (The amount is not replaced by `0`; the
intermediate points are non-positive and the final clamp yields `0`.) -/
theorem claim_C4_neg_amount (config : RewardEngineConfig) (orderAmount : ℚ)
    (customerTier : String) (hneg : orderAmount < 0)
    (hsm : config.mode = Mode.smart →
      config.smart_settings.cost_price ≤ config.smart_settings.selling_price ∧
      0 ≤ config.smart_settings.profit_allocation_percent)
    (hmn : config.mode = Mode.manual → 0 ≤ config.manual_settings.point_value)
    (htier : 0 ≤ tierMultiplierOf config.tier_multipliers customerTier)
    (hmax : 0 ≤ config.max_points_per_order) :
    calculatePointsPreview config orderAmount customerTier = 0 := by
  have hbase : basePointsOf config orderAmount ≤ 0 := by
    unfold basePointsOf
    cases hc : config.mode <;> dsimp only <;> split_ifs with h
    · obtain ⟨hcp, hpa⟩ := hsm hc
      refine Int.floor_nonpos ?_
      have hq : orderAmount / config.smart_settings.selling_price ≤ 0 :=
        le_of_lt (div_neg_of_neg_of_pos hneg h)
      have hprofit :
          (config.smart_settings.selling_price - config.smart_settings.cost_price) *
            (orderAmount / config.smart_settings.selling_price) ≤ 0 :=
        mul_nonpos_iff.mpr (Or.inl ⟨sub_nonneg.mpr hcp, hq⟩)
      exact mul_nonpos_iff.mpr (Or.inr ⟨hprofit, div_nonneg hpa (by norm_num)⟩)
    · exact le_refl 0
    · refine Int.floor_nonpos ?_
      have hq : orderAmount / config.manual_settings.aed_value ≤ 0 :=
        le_of_lt (div_neg_of_neg_of_pos hneg h)
      exact mul_nonpos_iff.mpr (Or.inr ⟨hq, hmn hc⟩)
    · exact le_refl 0
  have hfinal : finalPointsOf config orderAmount customerTier ≤ 0 := by
    unfold finalPointsOf
    refine Int.floor_nonpos ?_
    exact mul_nonpos_iff.mpr
      (Or.inr ⟨by exact_mod_cast hbase, htier⟩)
  unfold calculatePointsPreview
  rw [max_eq_right (by exact_mod_cast hfinal : (finalPointsOf config orderAmount
    customerTier : ℚ) ≤ 0)]
  exact min_eq_left hmax

/-- C4 amended witness: the default-style manual configuration on an order
amount of `−5`. -/
theorem claim_C4_neg_amount_witness :
    calculatePointsPreview ⟨Mode.manual, ⟨0, 0, 20⟩, ⟨10, 1⟩, ⟨1, 5/4, 3/2, 2⟩, 1000⟩ (-5)
      "bronze" = 0 :=
  claim_C4_neg_amount ⟨Mode.manual, ⟨0, 0, 20⟩, ⟨10, 1⟩, ⟨1, 5/4, 3/2, 2⟩, 1000⟩ (-5) "bronze"
    (by norm_num) (fun h => nomatch h) (fun _ => by norm_num)
    (by norm_num [tierMultiplierOf, tierLookup_bronze]) (by norm_num)

/-- C10: a configured tier multiplier of `0` is falsy in the source's
`|| 1.0` fallback, so it is silently replaced by `1.0` — the preview equals
the one computed with that tier's multiplier set to `1.0`. -/
theorem claim_C10_zero_multiplier (mode : Mode) (ss : SmartSettings) (ms : ManualSettings)
    (t : TierMultipliers) (maxp orderAmount : ℚ) (customerTier : String)
    (hzero : tierLookup t customerTier = some 0) :
    calculatePointsPreview ⟨mode, ss, ms, t, maxp⟩ orderAmount customerTier =
      calculatePointsPreview ⟨mode, ss, ms, setTier t customerTier 1, maxp⟩ orderAmount
        customerTier := by
  have hmul : tierMultiplierOf t customerTier =
      tierMultiplierOf (setTier t customerTier 1) customerTier := by
    unfold tierMultiplierOf tierLookup setTier
    unfold tierLookup at hzero
    split_ifs at hzero ⊢ <;> simp_all
  unfold calculatePointsPreview finalPointsOf
  rw [hmul]
  rfl

/-- C10 witness: bronze multiplier `0` behaves as `1.0` — the preview on a
95-AED order equals the one with bronze multiplier `1.0`. -/
theorem claim_C10_zero_multiplier_witness :
    calculatePointsPreview ⟨Mode.manual, ⟨0, 0, 20⟩, ⟨10, 1⟩, ⟨0, 5/4, 3/2, 2⟩, 1000⟩ 95
      "bronze" =
    calculatePointsPreview
      ⟨Mode.manual, ⟨0, 0, 20⟩, ⟨10, 1⟩, setTier ⟨0, 5/4, 3/2, 2⟩ "bronze" 1, 1000⟩ 95
      "bronze" :=
  claim_C10_zero_multiplier Mode.manual ⟨0, 0, 20⟩ ⟨10, 1⟩ ⟨0, 5/4, 3/2, 2⟩ 1000 95 "bronze"
    rfl
